import Mathlib

/-!
Verification of `tfx/orchestration/portable/mlmd/artifact_lib.py`.

The module provides two operations against an MLMD metadata store:
`get_artifacts_by_ids` (batch read, joining artifact records with their
type definitions and deserializing into typed artifacts) and
`update_artifacts` (batch write of already-persisted artifacts, with an
optional uniform state overwrite).

The store itself is an external collaborator: `get_artifacts_by_ids`
receives it as a function from the requested id list to the pair of
record list and type-definition list returned by
`store.get_artifacts_and_types_by_artifact_ids`; `update_artifacts`'
single store call (`store.put_artifacts`) is recorded in the result as
the list of batches passed to it.  Python exceptions are modelled with
`Except` on the read path and an explicit error field on the write
path (the write path must also expose the caller-visible in-memory
mutations that happened before a raise).
-/

/-- A type definition as returned by MLMD: identifier plus human-readable
name (`metadata_store_pb2.ArtifactType`, the fields this module reads). -/
structure ArtifactType where
  id : Nat
  name : String
deriving DecidableEq, Repr, Inhabited

/-- An artifact record (`metadata_store_pb2.Artifact`, the fields this
module reads or writes).  `id` is optional: `HasField ('id')` is `isSome`.
`type` is the human-readable type-name field which MLMD leaves unfilled
and `get_artifacts_by_ids` sets.  `uri` and `properties` stand for the
remaining payload fields, which this module never touches; `state` is the
state field written by `update_artifacts`. -/
structure MlmdArtifact where
  id : Option Nat
  type_id : Nat
  type : String
  uri : String
  properties : List (String × String)
  state : String
deriving DecidableEq, Repr, Inhabited

/-- A deserialized TFX artifact (`types.Artifact`): the wrapped MLMD record
plus the resolved artifact type that selected the domain-object shape
(`artifact_utils.deserialize_artifact` output). -/
structure TfxArtifact where
  artifact_type : ArtifactType
  mlmd_artifact : MlmdArtifact
deriving DecidableEq, Repr, Inhabited

/-- `tfx_artifact.state` reads the underlying record's state field. -/
def TfxArtifact.state (a : TfxArtifact) : String :=
  a.mlmd_artifact.state

/-- Error kinds raised by the module: `valueError` for the two explicit
`raise ValueError(...)` sites, `keyError` for a failed Python dict lookup
(`artifact_types_by_id [mlmd_artifact.type_id]`). -/
inductive MlmdError where
  | valueError (msg : String)
  | keyError (key : Nat)
deriving DecidableEq, Repr

/-- The Python dict comprehension on artifact_lib.py line 53,
with dict semantics: on duplicate type ids the last entry wins,
and the lookup of an absent key fails (modelled by `none`, raised as
`keyError` at the use sites). -/
def artifact_types_by_id (ts : List ArtifactType) (k : Nat) : Option ArtifactType :=
  ts.reverse.find? (fun t => t.id == k)

/-- The `for` loop on artifact_lib.py lines 56-57: set the `type` field of
every record from the type lookup, failing with `keyError` at the first
record whose type id is absent. -/
def setTypes (ts : List ArtifactType) : List MlmdArtifact → Except MlmdError (List MlmdArtifact)
  | [] => .ok []
  | a :: rest =>
    match artifact_types_by_id ts a.type_id with
    | none => .error (.keyError a.type_id)
    | some t => (setTypes ts rest).map (fun l => { a with type := t.name } :: l)

/-- `artifact_utils.deserialize_artifact`: build the typed artifact from
the resolved type definition and the annotated record. -/
def deserialize_artifact (t : ArtifactType) (a : MlmdArtifact) : TfxArtifact :=
  { artifact_type := t, mlmd_artifact := a }

/-- The list comprehension on artifact_lib.py lines 60-65: deserialize every
record through the same type lookup, failing with `keyError` at the first
record whose type id is absent. -/
def deserializeAll (ts : List ArtifactType) : List MlmdArtifact → Except MlmdError (List TfxArtifact)
  | [] => .ok []
  | a :: rest =>
    match artifact_types_by_id ts a.type_id with
    | none => .error (.keyError a.type_id)
    | some t => (deserializeAll ts rest).map (fun l => deserialize_artifact t a :: l)

/-- `get_artifacts_by_ids` (artifact_lib.py lines 27-72).  `store` models
`metadata_handle.store.get_artifacts_and_types_by_artifact_ids`.  The
telemetry emission is a no-op side channel and has no effect to model. -/
def get_artifacts_by_ids (store : List Nat → List MlmdArtifact × List ArtifactType)
    (artifact_ids : List Nat) : Except MlmdError (List TfxArtifact) :=
  let fetched := store artifact_ids
  let mlmd_artifacts := fetched.1
  let artifact_types := fetched.2
  if artifact_ids.length ≠ mlmd_artifacts.length then
    .error (.valueError ("Could not find all MLMD artifacts for ids: " ++ toString artifact_ids))
  else
    match setTypes artifact_types mlmd_artifacts with
    | .error e => .error e
    | .ok annotated => deserializeAll artifact_types annotated

/-- Python truthiness of the `Optional [str]` argument `new_artifact_state`
as tested by `if new_artifact_state:` — `None` and the empty string are
both falsy. -/
def optStrTruthy : Option String → Bool
  | none => false
  | some s => !s.isEmpty

/-- `tfx_artifact.state = new_artifact_state`: write the state field of the
underlying record. -/
def setState (a : TfxArtifact) (s : String) : TfxArtifact :=
  { a with mlmd_artifact := { a.mlmd_artifact with state := s } }

/-- Lines 86-87 of artifact_lib.py: overwrite the state only when the
supplied value is truthy. -/
def applyState (new_artifact_state : Option String) (a : TfxArtifact) : TfxArtifact :=
  if optStrTruthy new_artifact_state then setState a (new_artifact_state.getD "") else a

/-- Caller-observable outcome of `update_artifacts`: the final in-memory
values of the flattened artifacts (mutation is visible to the caller even
when the call raises), the batches passed to `store.put_artifacts`, and
the raised error if any. -/
structure UpdateOutcome where
  artifacts : List TfxArtifact
  putCalls : List (List MlmdArtifact)
  error : Option MlmdError
deriving DecidableEq, Repr

/-- The `for` loop on artifact_lib.py lines 83-88: walk the flattened
artifacts; raise at the first one without a persisted id (leaving it and
everything after it untouched), otherwise optionally overwrite the state
and accumulate the underlying record for the write batch.  Returns the
final artifact values, the accumulated `mlmd_artifacts_to_update`, and
the raised error if any. -/
def updateLoop (new_artifact_state : Option String) :
    List TfxArtifact → List TfxArtifact × List MlmdArtifact × Option MlmdError
  | [] => ([], [], none)
  | a :: rest =>
    if a.mlmd_artifact.id.isSome then
      let a' := applyState new_artifact_state a
      let r := updateLoop new_artifact_state rest
      (a' :: r.1, a'.mlmd_artifact :: r.2.1, r.2.2)
    else
      (a :: rest, [],
        some (.valueError "Artifact must have an MLMD ID in order to be updated."))

/-- The flattened artifact sequence of a multi-map:
`itertools.chain.from_iterable (tfx_artifact_map.values)` on line 83. -/
def flattenMap (tfx_artifact_map : List (String × List TfxArtifact)) : List TfxArtifact :=
  (tfx_artifact_map.map Prod.snd).flatten

/-- `update_artifacts` (artifact_lib.py lines 75-95).  The multi-map is a
key-ordered association list whose value lists are flattened and walked by
`updateLoop`.  `store.put_artifacts` is called once, on the accumulated
batch, only when no error was raised and the batch is non-empty
(`if mlmd_artifacts_to_update:` on line 89). -/
def update_artifacts (tfx_artifact_map : List (String × List TfxArtifact))
    (new_artifact_state : Option String) : UpdateOutcome :=
  match updateLoop new_artifact_state (flattenMap tfx_artifact_map) with
  | (arts, _, some e) => { artifacts := arts, putCalls := [], error := some e }
  | (arts, mlmd_artifacts_to_update, none) =>
      { artifacts := arts
        putCalls :=
          if mlmd_artifacts_to_update.isEmpty then [] else [mlmd_artifacts_to_update]
        error := none }

/-! ### Lemmas about the type lookup -/

lemma lookup_mem {ts : List ArtifactType} {k : Nat} {t : ArtifactType}
    (h : artifact_types_by_id ts k = some t) : t ∈ ts ∧ t.id = k := by
  unfold artifact_types_by_id at h
  refine ⟨List.mem_reverse.mp (List.mem_of_find?_eq_some h), ?_⟩
  have := List.find?_some h
  simpa using this

lemma lookup_isSome_iff {ts : List ArtifactType} {k : Nat} :
    (artifact_types_by_id ts k).isSome = true ↔ ∃ t ∈ ts, t.id = k := by
  unfold artifact_types_by_id
  rw [List.find?_isSome]
  constructor
  · rintro ⟨t, ht, hp⟩
    exact ⟨t, List.mem_reverse.mp ht, by simpa using hp⟩
  · rintro ⟨t, ht, hp⟩
    exact ⟨t, List.mem_reverse.mpr ht, by simpa using hp⟩

lemma lookup_getD_spec {ts : List ArtifactType} {k : Nat}
    (h : ∃ t ∈ ts, t.id = k) :
    (artifact_types_by_id ts k).getD default ∈ ts ∧
      ((artifact_types_by_id ts k).getD default).id = k := by
  have hs : (artifact_types_by_id ts k).isSome = true := lookup_isSome_iff.mpr h
  obtain ⟨t, ht⟩ := Option.isSome_iff_exists.mp hs
  rw [ht]
  simpa using lookup_mem ht

/-! ### Functional characterization of the read path -/

lemma setTypes_eq_ok (ts : List ArtifactType) :
    ∀ l : List MlmdArtifact, (∀ a ∈ l, ∃ t ∈ ts, t.id = a.type_id) →
      setTypes ts l = .ok (l.map (fun a =>
        { a with type := ((artifact_types_by_id ts a.type_id).getD default).name }))
  | [], _ => rfl
  | a :: rest, h => by
    have ha : (artifact_types_by_id ts a.type_id).isSome = true :=
      lookup_isSome_iff.mpr (h a (List.mem_cons_self a rest))
    obtain ⟨t, ht⟩ := Option.isSome_iff_exists.mp ha
    have ih := setTypes_eq_ok ts rest (fun x hx => h x (List.mem_cons_of_mem a hx))
    simp only [setTypes, ht, ih, Except.map, List.map_cons, Option.getD_some]

lemma deserializeAll_eq_ok (ts : List ArtifactType) :
    ∀ l : List MlmdArtifact, (∀ a ∈ l, ∃ t ∈ ts, t.id = a.type_id) →
      deserializeAll ts l = .ok (l.map (fun a =>
        deserialize_artifact ((artifact_types_by_id ts a.type_id).getD default) a))
  | [], _ => rfl
  | a :: rest, h => by
    have ha : (artifact_types_by_id ts a.type_id).isSome = true :=
      lookup_isSome_iff.mpr (h a (List.mem_cons_self a rest))
    obtain ⟨t, ht⟩ := Option.isSome_iff_exists.mp ha
    have ih := deserializeAll_eq_ok ts rest (fun x hx => h x (List.mem_cons_of_mem a hx))
    simp only [deserializeAll, ht, ih, Except.map, List.map_cons, Option.getD_some]

/-- On a successful read, `get_artifacts_by_ids` returns, in the store's
order, each fetched record annotated with its resolved type name and
wrapped with its resolved type definition. -/
lemma get_artifacts_by_ids_ok (store : List Nat → List MlmdArtifact × List ArtifactType)
    (artifact_ids : List Nat)
    (hlen : artifact_ids.length = (store artifact_ids).1.length)
    (hcov : ∀ a ∈ (store artifact_ids).1,
      ∃ t ∈ (store artifact_ids).2, t.id = a.type_id) :
    get_artifacts_by_ids store artifact_ids =
      .ok ((store artifact_ids).1.map (fun a =>
        deserialize_artifact
          ((artifact_types_by_id (store artifact_ids).2 a.type_id).getD default)
          { a with
            type := ((artifact_types_by_id (store artifact_ids).2 a.type_id).getD
              default).name })) := by
  unfold get_artifacts_by_ids
  simp only [hlen, ne_eq, not_true_eq_false, if_false, ite_false]
  rw [setTypes_eq_ok (store artifact_ids).2 (store artifact_ids).1 hcov]
  have hcov2 : ∀ a ∈ (store artifact_ids).1.map (fun a =>
      { a with
        type := ((artifact_types_by_id (store artifact_ids).2 a.type_id).getD
          default).name }),
      ∃ t ∈ (store artifact_ids).2, t.id = a.type_id := by
    intro a ha
    obtain ⟨b, hb, rfl⟩ := List.mem_map.mp ha
    exact hcov b hb
  refine Eq.trans (deserializeAll_eq_ok (store artifact_ids).2 _ hcov2) ?_
  rw [List.map_map]
  rfl

/-! ### Error paths of the read side -/

/-- A count mismatch between requested ids and returned records raises the
`ValueError` naming the full requested id list, before any type handling. -/
lemma get_artifacts_by_ids_len_mismatch
    (store : List Nat → List MlmdArtifact × List ArtifactType)
    (artifact_ids : List Nat)
    (h : artifact_ids.length ≠ (store artifact_ids).1.length) :
    get_artifacts_by_ids store artifact_ids =
      .error (.valueError
        ("Could not find all MLMD artifacts for ids: " ++ toString artifact_ids)) := by
  unfold get_artifacts_by_ids
  rw [if_pos h]

/-- `setTypes` fails with the `KeyError` of the first record whose type id
the lookup cannot resolve. -/
lemma setTypes_first_missing (ts : List ArtifactType) :
    ∀ (l : List MlmdArtifact) (bad : MlmdArtifact),
      l.find? (fun a => (artifact_types_by_id ts a.type_id).isNone) = some bad →
      setTypes ts l = .error (.keyError bad.type_id)
  | [], bad, h => by simp at h
  | a :: rest, bad, h => by
    rw [List.find?_cons] at h
    rcases hl : artifact_types_by_id ts a.type_id with _ | t
    · simp only [hl, Option.isNone_none, if_true, ite_true, Option.some.injEq] at h
      subst h
      simp only [setTypes, hl]
    · simp only [hl, Option.isNone_some, if_false, ite_false, Bool.false_eq_true] at h
      have ih := setTypes_first_missing ts rest bad h
      simp only [setTypes, hl, ih, Except.map]

/-- When the count check passes but some record's type id is unresolvable,
`get_artifacts_by_ids` propagates the first lookup failure unchanged as a
`keyError` (no translation into the not-found `ValueError`). -/
lemma get_artifacts_by_ids_keyError
    (store : List Nat → List MlmdArtifact × List ArtifactType)
    (artifact_ids : List Nat) (bad : MlmdArtifact)
    (hlen : artifact_ids.length = (store artifact_ids).1.length)
    (hfind : (store artifact_ids).1.find?
        (fun a => (artifact_types_by_id (store artifact_ids).2 a.type_id).isNone) =
      some bad) :
    get_artifacts_by_ids store artifact_ids = .error (.keyError bad.type_id) := by
  unfold get_artifacts_by_ids
  simp only [hlen, ne_eq, not_true_eq_false, if_false, ite_false]
  rw [setTypes_first_missing (store artifact_ids).2 (store artifact_ids).1 bad hfind]

/-! ### Lemmas about the write path -/

lemma applyState_of_not_truthy {new_artifact_state : Option String}
    (h : optStrTruthy new_artifact_state = false) (a : TfxArtifact) :
    applyState new_artifact_state a = a := by
  unfold applyState
  rw [h]
  rfl

/-- When every artifact in the flattened sequence carries a persisted id,
the loop mutates each in order and accumulates all underlying records. -/
lemma updateLoop_all_ids (new_artifact_state : Option String) :
    ∀ l : List TfxArtifact, (∀ a ∈ l, a.mlmd_artifact.id.isSome = true) →
      updateLoop new_artifact_state l =
        (l.map (applyState new_artifact_state),
          (l.map (applyState new_artifact_state)).map (fun a => a.mlmd_artifact),
          none)
  | [], _ => rfl
  | a :: rest, h => by
    have ha := h a (List.mem_cons_self a rest)
    have ih := updateLoop_all_ids new_artifact_state rest
      (fun x hx => h x (List.mem_cons_of_mem a hx))
    simp only [updateLoop, ha, ih, if_true, List.map_cons, ite_true]

/-- When the flattened sequence splits as a clean prefix, a first artifact
without a persisted id, and a tail, the loop raises there: the prefix has
been mutated, the offender and the tail are untouched. -/
lemma updateLoop_first_bad (new_artifact_state : Option String) :
    ∀ (l₁ : List TfxArtifact) (bad : TfxArtifact) (l₂ : List TfxArtifact),
      (∀ a ∈ l₁, a.mlmd_artifact.id.isSome = true) →
      bad.mlmd_artifact.id = none →
      updateLoop new_artifact_state (l₁ ++ bad :: l₂) =
        (l₁.map (applyState new_artifact_state) ++ bad :: l₂,
          (l₁.map (applyState new_artifact_state)).map (fun a => a.mlmd_artifact),
          some (.valueError "Artifact must have an MLMD ID in order to be updated."))
  | [], bad, l₂, _, hbad => by
    have hb : bad.mlmd_artifact.id.isSome = false := by rw [hbad]; rfl
    simp [updateLoop, hb]
  | a :: l₁, bad, l₂, h, hbad => by
    have ha := h a (List.mem_cons_self a l₁)
    have ih := updateLoop_first_bad new_artifact_state l₁ bad l₂
      (fun x hx => h x (List.mem_cons_of_mem a hx)) hbad
    simp only [List.cons_append, updateLoop, ha, List.append_eq, ih, if_true,
      List.map_cons, ite_true]

/-- `update_artifacts` on an all-persisted batch: every artifact is
state-adjusted in place, no error, and one write batch of exactly the
underlying records unless the batch is empty. -/
lemma update_artifacts_all_ids (tfx_artifact_map : List (String × List TfxArtifact))
    (new_artifact_state : Option String)
    (h : ∀ a ∈ flattenMap tfx_artifact_map, a.mlmd_artifact.id.isSome = true) :
    update_artifacts tfx_artifact_map new_artifact_state =
      { artifacts := (flattenMap tfx_artifact_map).map (applyState new_artifact_state)
        putCalls :=
          if (flattenMap tfx_artifact_map).isEmpty then []
          else
            [((flattenMap tfx_artifact_map).map (applyState new_artifact_state)).map
              (fun a => a.mlmd_artifact)]
        error := none } := by
  have key := updateLoop_all_ids new_artifact_state (flattenMap tfx_artifact_map) h
  unfold update_artifacts
  rw [key]
  rcases flattenMap tfx_artifact_map with _ | ⟨x, xs⟩ <;> rfl

/-- `update_artifacts` when a first id-less artifact exists: the raise,
no store call, prefix mutated, offender and tail untouched. -/
lemma update_artifacts_first_bad (tfx_artifact_map : List (String × List TfxArtifact))
    (new_artifact_state : Option String)
    (l₁ : List TfxArtifact) (bad : TfxArtifact) (l₂ : List TfxArtifact)
    (hsplit : flattenMap tfx_artifact_map = l₁ ++ bad :: l₂)
    (h₁ : ∀ a ∈ l₁, a.mlmd_artifact.id.isSome = true)
    (hbad : bad.mlmd_artifact.id = none) :
    update_artifacts tfx_artifact_map new_artifact_state =
      { artifacts := l₁.map (applyState new_artifact_state) ++ bad :: l₂
        putCalls := []
        error :=
          some (.valueError "Artifact must have an MLMD ID in order to be updated.") } := by
  have key := updateLoop_first_bad new_artifact_state l₁ bad l₂ h₁ hbad
  unfold update_artifacts
  rw [hsplit, key]

/-- Decompose a list at its first element satisfying a Boolean predicate. -/
lemma exists_first_split {α : Type} (p : α → Bool) :
    ∀ l : List α, (∃ a ∈ l, p a = true) →
      ∃ (l₁ : List α) (b : α) (l₂ : List α),
        l = l₁ ++ b :: l₂ ∧ p b = true ∧ ∀ x ∈ l₁, p x = false
  | [], h => by simp at h
  | a :: rest, h => by
    rcases hpa : p a with _ | _
    · have hrest : ∃ x ∈ rest, p x = true := by
        rcases h with ⟨x, hx, hpx⟩
        rcases List.mem_cons.mp hx with rfl | hx'
        · rw [hpa] at hpx; cases hpx
        · exact ⟨x, hx', hpx⟩
      obtain ⟨l₁, b, l₂, hsplit, hpb, hclean⟩ := exists_first_split p rest hrest
      refine ⟨a :: l₁, b, l₂, by rw [hsplit, List.cons_append], hpb, ?_⟩
      intro x hx
      rcases List.mem_cons.mp hx with rfl | hx'
      · exact hpa
      · exact hclean x hx'
    · exact ⟨[], a, rest, rfl, hpa, by simp⟩

/-! ### Concrete fixtures (used by counterexamples and witnesses) -/

def tyA : ArtifactType := ⟨10, "A"⟩

def tyB : ArtifactType := ⟨20, "B"⟩

def recOne : MlmdArtifact := ⟨some 1, 10, "", "uri1", [("k", "v")], "published"⟩

def recTwo : MlmdArtifact := ⟨some 2, 20, "", "uri2", [], "published"⟩

/-- A store honouring the documented contract literally: exactly one record
per distinct requested identifier (here ids 1 and 2 exist). -/
def dedupStore : List Nat → List MlmdArtifact × List ArtifactType :=
  fun ids =>
    (ids.dedup.filterMap
        (fun i => if i = 1 then some recOne else if i = 2 then some recTwo else none),
      [tyA, tyB])

/-- A store resolving ids 1 and 2 to one record each. -/
def storeAB : List Nat → List MlmdArtifact × List ArtifactType :=
  fun _ => ([recOne, recTwo], [tyA, tyB])

/-- A store resolving no identifier at all. -/
def emptyStore : List Nat → List MlmdArtifact × List ArtifactType :=
  fun _ => ([], [tyA, tyB])

def recBadType : MlmdArtifact := ⟨some 7, 99, "", "uri7", [], "published"⟩

/-- A store whose returned record references a type id absent from the
returned type definitions (a store-consistency violation). -/
def badTypeStore : List Nat → List MlmdArtifact × List ArtifactType :=
  fun _ => ([recBadType], [tyA])

def artOne : TfxArtifact := ⟨tyA, recOne⟩

def artTwo : TfxArtifact := ⟨tyB, recTwo⟩

def artNoId : TfxArtifact := ⟨tyB, ⟨none, 20, "", "uri3", [], "pending"⟩⟩

/-! ### Claim C1 -/

/-- C1 (counterexample): with a store honouring the claim's own hypothesis —
exactly one record per distinct requested identifier, and the requested
identifier 1 does exist — the duplicated request `[1, 1]` does not yield
two typed artifacts: the count check on line 48 compares the raw request
length (2) against the returned-record count (1) and raises the not-found
`ValueError` instead. -/
theorem c1_duplicates_counterexample :
    (dedupStore [1, 1]).1.map (fun a => a.id) = [some 1] ∧
    ([1, 1] : List Nat).dedup.length = (dedupStore [1, 1]).1.length ∧
    get_artifacts_by_ids dedupStore [1, 1] =
      .error (.valueError "Could not find all MLMD artifacts for ids: [1, 1]") :=
  ⟨rfl, rfl, rfl⟩

/-- C1 (amended: the identifier sequence must be duplicate-free): for a
duplicate-free request whose identifiers the store resolves one record
each (the returned records' identifiers are a permutation of the requested
ones) and whose records' type ids all resolve in the returned type
definitions, `get_artifacts_by_ids` returns exactly one typed artifact per
requested identifier and the multiset of the returned artifacts'
identifiers equals the multiset of requested identifiers. -/
theorem c1_roundtrip_nodup
    (store : List Nat → List MlmdArtifact × List ArtifactType)
    (artifact_ids : List Nat)
    (_hnd : artifact_ids.Nodup)
    (hids : ((store artifact_ids).1.map (fun a => a.id)).Perm
      (artifact_ids.map (fun i => some i)))
    (hcov : ∀ a ∈ (store artifact_ids).1,
      ∃ t ∈ (store artifact_ids).2, t.id = a.type_id) :
    ∃ l, get_artifacts_by_ids store artifact_ids = .ok l ∧
      l.length = artifact_ids.length ∧
      (l.map (fun ta => ta.mlmd_artifact.id)).Perm
        (artifact_ids.map (fun i => some i)) := by
  have hlen : artifact_ids.length = (store artifact_ids).1.length := by
    have := hids.length_eq
    simp only [List.length_map] at this
    omega
  refine ⟨_, get_artifacts_by_ids_ok store artifact_ids hlen hcov, ?_, ?_⟩
  · rw [List.length_map, hlen]
  · rw [List.map_map]
    exact hids

/-- C1 witness at a concrete duplicate-free input. -/
theorem c1_roundtrip_nodup_witness :
    ∃ l, get_artifacts_by_ids storeAB [1, 2] = .ok l ∧
      l.length = ([1, 2] : List Nat).length ∧
      (l.map (fun ta => ta.mlmd_artifact.id)).Perm
        (([1, 2] : List Nat).map (fun i => some i)) :=
  c1_roundtrip_nodup storeAB [1, 2] (by decide) (by decide) (by decide)

/-! ### Claim C2 -/

/-- C2: when the store resolves fewer records than the number of requested
identifiers, `get_artifacts_by_ids` fails with the not-found `ValueError`
whose message names the full requested identifier list, and returns no
partial result. -/
theorem c2_missing_ids_error
    (store : List Nat → List MlmdArtifact × List ArtifactType)
    (artifact_ids : List Nat)
    (h : (store artifact_ids).1.length < artifact_ids.length) :
    get_artifacts_by_ids store artifact_ids =
      .error (.valueError
        ("Could not find all MLMD artifacts for ids: " ++ toString artifact_ids)) :=
  get_artifacts_by_ids_len_mismatch store artifact_ids (by omega)

/-- C2 witness: a store resolving none of the single requested id. -/
theorem c2_missing_ids_error_witness :
    get_artifacts_by_ids emptyStore [5] =
      .error (.valueError
        ("Could not find all MLMD artifacts for ids: " ++ toString ([5] : List Nat))) :=
  c2_missing_ids_error emptyStore [5] (by decide)

/-! ### Claim C3 -/

/-- C3: if any flattened artifact lacks a persisted id, `update_artifacts`
raises the `ValueError` and the store's write primitive is never invoked. -/
theorem c3_update_invalid_no_write
    (tfx_artifact_map : List (String × List TfxArtifact))
    (new_artifact_state : Option String)
    (h : ∃ a ∈ flattenMap tfx_artifact_map, a.mlmd_artifact.id = none) :
    (update_artifacts tfx_artifact_map new_artifact_state).putCalls = [] ∧
    (update_artifacts tfx_artifact_map new_artifact_state).error =
      some (.valueError "Artifact must have an MLMD ID in order to be updated.") := by
  obtain ⟨l₁, bad, l₂, hsplit, hpb, hclean⟩ :=
    exists_first_split (fun a => a.mlmd_artifact.id.isNone)
      (flattenMap tfx_artifact_map)
      (by
        obtain ⟨a, ha, hid⟩ := h
        exact ⟨a, ha, by simp only [hid, Option.isNone_none]⟩)
  have hbad : bad.mlmd_artifact.id = none := Option.isNone_iff_eq_none.mp hpb
  have h₁ : ∀ a ∈ l₁, a.mlmd_artifact.id.isSome = true := by
    intro x hx
    have hfx := hclean x hx
    rcases hxid : x.mlmd_artifact.id with _ | v
    · rw [hxid] at hfx
      simp at hfx
    · rfl
  rw [update_artifacts_first_bad tfx_artifact_map new_artifact_state l₁ bad l₂
    hsplit h₁ hbad]
  exact ⟨rfl, rfl⟩

/-- C3 witness at a concrete multi-map holding one id-less artifact. -/
theorem c3_update_invalid_no_write_witness :
    (update_artifacts [("out", [artNoId])] none).putCalls = [] ∧
    (update_artifacts [("out", [artNoId])] none).error =
      some (.valueError "Artifact must have an MLMD ID in order to be updated.") :=
  c3_update_invalid_no_write [("out", [artNoId])] none (by decide)

/-! ### Claim C4 -/

/-- C4: on a successful batch read (count check passes, every record's type
id resolvable, the store's type definitions pairwise-distinct by id), each
returned typed artifact's resolved type name — both the `type` field set on
the record and the attached type definition — equals the name of the type
definition whose identifier equals the record's type identifier. -/
theorem c4_type_join_correct
    (store : List Nat → List MlmdArtifact × List ArtifactType)
    (artifact_ids : List Nat)
    (hlen : artifact_ids.length = (store artifact_ids).1.length)
    (hcov : ∀ a ∈ (store artifact_ids).1,
      ∃ t ∈ (store artifact_ids).2, t.id = a.type_id)
    (hnd : ((store artifact_ids).2.map (fun t => t.id)).Nodup) :
    ∃ l, get_artifacts_by_ids store artifact_ids = .ok l ∧
      ∀ ta ∈ l, ∀ t ∈ (store artifact_ids).2, t.id = ta.mlmd_artifact.type_id →
        ta.mlmd_artifact.type = t.name ∧ ta.artifact_type = t := by
  refine ⟨_, get_artifacts_by_ids_ok store artifact_ids hlen hcov, ?_⟩
  intro ta hta t ht htid
  obtain ⟨a, ha, rfl⟩ := List.mem_map.mp hta
  have hspec := lookup_getD_spec (hcov a ha)
  have htid' : t.id = a.type_id := htid
  have hte : t = (artifact_types_by_id (store artifact_ids).2 a.type_id).getD default :=
    List.inj_on_of_nodup_map hnd ht hspec.1 (by rw [htid', hspec.2])
  constructor
  · show ((artifact_types_by_id (store artifact_ids).2 a.type_id).getD default).name
      = t.name
    rw [hte]
  · show (artifact_types_by_id (store artifact_ids).2 a.type_id).getD default = t
    rw [hte]

/-- C4 witness on a batch containing two distinct types. -/
theorem c4_type_join_correct_witness :
    ∃ l, get_artifacts_by_ids storeAB [1, 2] = .ok l ∧
      ∀ ta ∈ l, ∀ t ∈ (storeAB [1, 2]).2, t.id = ta.mlmd_artifact.type_id →
        ta.mlmd_artifact.type = t.name ∧ ta.artifact_type = t :=
  c4_type_join_correct storeAB [1, 2] (by decide) (by decide) (by decide)

/-! ### Claim C5 -/

/-- C5 (counterexample): for the empty multi-map — K = 0 artifacts, all of
them vacuously persisted — and a non-empty new-state value, the store's
write primitive is not handed one batched call of 0 records: it is never
called at all (line 89 skips the call for an empty batch). -/
theorem c5_counterexample_empty_map :
    (update_artifacts [] (some "LIVE")).putCalls = [] ∧
    (update_artifacts [] (some "LIVE")).putCalls ≠ [[]] :=
  ⟨rfl, by decide⟩

/-- C5 (amended: K ≥ 1; for K = 0 the store call is skipped entirely):
with a non-empty new-state value and every flattened artifact persisted,
all K artifacts' in-memory state equals the new value after the call, and
the store receives exactly the K underlying records in one batched call. -/
theorem c5_state_overwrite
    (tfx_artifact_map : List (String × List TfxArtifact)) (s : String)
    (hs : s ≠ "")
    (hne : flattenMap tfx_artifact_map ≠ [])
    (hid : ∀ a ∈ flattenMap tfx_artifact_map, a.mlmd_artifact.id.isSome = true) :
    (update_artifacts tfx_artifact_map (some s)).error = none ∧
    (update_artifacts tfx_artifact_map (some s)).artifacts.length =
      (flattenMap tfx_artifact_map).length ∧
    (∀ a ∈ (update_artifacts tfx_artifact_map (some s)).artifacts,
      a.state = s) ∧
    (update_artifacts tfx_artifact_map (some s)).putCalls =
      [(update_artifacts tfx_artifact_map (some s)).artifacts.map
        (fun a => a.mlmd_artifact)] := by
  have key := update_artifacts_all_ids tfx_artifact_map (some s) hid
  have hie : s.isEmpty = false := by
    cases hq : s.isEmpty with
    | false => rfl
    | true => exact absurd ((String.isEmpty_iff s).mp hq) hs
  have htr : optStrTruthy (some s) = true := by
    simp only [optStrTruthy, hie]
    rfl
  have hfe : (flattenMap tfx_artifact_map).isEmpty = false := by
    cases hq : flattenMap tfx_artifact_map with
    | nil => exact absurd hq hne
    | cons x xs => rfl
  rw [key]
  refine ⟨rfl, by rw [List.length_map], ?_, ?_⟩
  · intro a ha
    obtain ⟨b, _, rfl⟩ := List.mem_map.mp ha
    show (applyState (some s) b).mlmd_artifact.state = s
    unfold applyState
    rw [htr]
    rfl
  · rw [hfe]
    rfl

/-- C5 witness on two persisted artifacts and state "LIVE". -/
theorem c5_state_overwrite_witness :
    (update_artifacts [("x", [artOne, artTwo])] (some "LIVE")).error = none ∧
    (update_artifacts [("x", [artOne, artTwo])] (some "LIVE")).artifacts.length =
      (flattenMap [("x", [artOne, artTwo])]).length ∧
    (∀ a ∈ (update_artifacts [("x", [artOne, artTwo])] (some "LIVE")).artifacts,
      a.state = "LIVE") ∧
    (update_artifacts [("x", [artOne, artTwo])] (some "LIVE")).putCalls =
      [(update_artifacts [("x", [artOne, artTwo])] (some "LIVE")).artifacts.map
        (fun a => a.mlmd_artifact)] :=
  c5_state_overwrite [("x", [artOne, artTwo])] "LIVE" (by decide) (by decide)
    (by decide)

/-! ### Claim C6 -/

/-- C6 (counterexample): updating a batch whose second artifact lacks a
persisted id, with new state "LIVE", raises the `ValueError` — yet the
first artifact's in-memory state has already been overwritten from
"published" to "LIVE".  Identifier validation does not precede state
mutation: the loop interleaves them per artifact. -/
theorem c6_counterexample_partial_mutation :
    (update_artifacts [("x", [artOne, artNoId])] (some "LIVE")).error =
      some (.valueError "Artifact must have an MLMD ID in order to be updated.") ∧
    artOne.state = "published" ∧
    (update_artifacts [("x", [artOne, artNoId])] (some "LIVE")).artifacts.map
      (fun a => a.state) = ["LIVE", "pending"] :=
  ⟨rfl, rfl, rfl⟩

/-- C6 (amended: only artifacts strictly before the first id-less artifact
in flattened order are modified): when `update_artifacts` fails because an
artifact lacks a persisted id, the store is never called, the first
id-less artifact and every artifact after it keep their caller-supplied
values, and each artifact before it has had the optional state overwrite
applied exactly as on the success path. -/
theorem c6_mutation_before_failure
    (tfx_artifact_map : List (String × List TfxArtifact))
    (new_artifact_state : Option String)
    (l₁ : List TfxArtifact) (bad : TfxArtifact) (l₂ : List TfxArtifact)
    (hsplit : flattenMap tfx_artifact_map = l₁ ++ bad :: l₂)
    (h₁ : ∀ a ∈ l₁, a.mlmd_artifact.id.isSome = true)
    (hbad : bad.mlmd_artifact.id = none) :
    (update_artifacts tfx_artifact_map new_artifact_state).error =
      some (.valueError "Artifact must have an MLMD ID in order to be updated.") ∧
    (update_artifacts tfx_artifact_map new_artifact_state).putCalls = [] ∧
    (update_artifacts tfx_artifact_map new_artifact_state).artifacts =
      l₁.map (applyState new_artifact_state) ++ bad :: l₂ := by
  rw [update_artifacts_first_bad tfx_artifact_map new_artifact_state l₁ bad l₂
    hsplit h₁ hbad]
  exact ⟨rfl, rfl, rfl⟩

/-- C6 witness: one persisted artifact before the id-less one. -/
theorem c6_mutation_before_failure_witness :
    (update_artifacts [("x", [artOne, artNoId])] (some "DELETED")).error =
      some (.valueError "Artifact must have an MLMD ID in order to be updated.") ∧
    (update_artifacts [("x", [artOne, artNoId])] (some "DELETED")).putCalls = [] ∧
    (update_artifacts [("x", [artOne, artNoId])] (some "DELETED")).artifacts =
      [artOne].map (applyState (some "DELETED")) ++ artNoId :: [] :=
  c6_mutation_before_failure [("x", [artOne, artNoId])] (some "DELETED")
    [artOne] artNoId [] (by decide) (by decide) (by decide)

/-! ### Claim C7 -/

/-- C7: a multi-map whose value lists flatten to the empty sequence yields
zero store write calls and no error (and no artifact values to touch). -/
theorem c7_empty_noop
    (tfx_artifact_map : List (String × List TfxArtifact))
    (new_artifact_state : Option String)
    (h : flattenMap tfx_artifact_map = []) :
    update_artifacts tfx_artifact_map new_artifact_state =
      { artifacts := [], putCalls := [], error := none } := by
  unfold update_artifacts
  rw [h]
  rfl

/-- C7 witness: a multi-map with one key mapped to an empty list. -/
theorem c7_empty_noop_witness :
    update_artifacts [("examples", [])] none =
      { artifacts := [], putCalls := [], error := none } :=
  c7_empty_noop [("examples", [])] none (by decide)

/-! ### Claim C8 -/

/-- C8: once the count check passes, the per-record type lookup succeeds
for every record whenever the store returned every referenced type
definition; and when some record's type id is unresolvable, the lookup
failure propagates to the caller as the `keyError` itself — not translated
into the not-found `ValueError` or anything else. -/
theorem c8_type_lookup
    (store : List Nat → List MlmdArtifact × List ArtifactType)
    (artifact_ids : List Nat)
    (hlen : artifact_ids.length = (store artifact_ids).1.length) :
    ((∀ a ∈ (store artifact_ids).1,
        ∃ t ∈ (store artifact_ids).2, t.id = a.type_id) →
      ∃ l, get_artifacts_by_ids store artifact_ids = .ok l) ∧
    (∀ bad, (store artifact_ids).1.find?
        (fun a => (artifact_types_by_id (store artifact_ids).2 a.type_id).isNone) =
          some bad →
      get_artifacts_by_ids store artifact_ids = .error (.keyError bad.type_id)) := by
  constructor
  · intro hcov
    exact ⟨_, get_artifacts_by_ids_ok store artifact_ids hlen hcov⟩
  · intro bad hfind
    exact get_artifacts_by_ids_keyError store artifact_ids bad hlen hfind

/-- C8 witness: a store returning a record of type id 99 but no type
definition for it; the call fails with the key error for 99. -/
theorem c8_type_lookup_witness :
    get_artifacts_by_ids badTypeStore [7] = .error (.keyError 99) :=
  (c8_type_lookup badTypeStore [7] (by decide)).2 recBadType (by decide)

/-! ### Claim C9 -/

lemma map_applyState_of_not_truthy {new_artifact_state : Option String}
    (h : optStrTruthy new_artifact_state = false) :
    ∀ l : List TfxArtifact, l.map (applyState new_artifact_state) = l
  | [] => rfl
  | a :: rest => by
    rw [List.map_cons, map_applyState_of_not_truthy h rest,
      applyState_of_not_truthy h a]

/-- C9: supplying the empty string as the new-state value behaves exactly
like supplying none (Python truthiness of `if new_artifact_state:`): on an
all-persisted batch no artifact's state field changes, no error is raised,
and the unchanged underlying records are still the ones handed to the
store's write batch. -/
theorem c9_empty_state_string
    (tfx_artifact_map : List (String × List TfxArtifact))
    (hid : ∀ a ∈ flattenMap tfx_artifact_map, a.mlmd_artifact.id.isSome = true) :
    update_artifacts tfx_artifact_map (some "") =
      update_artifacts tfx_artifact_map none ∧
    (update_artifacts tfx_artifact_map (some "")).error = none ∧
    (update_artifacts tfx_artifact_map (some "")).artifacts =
      flattenMap tfx_artifact_map ∧
    (update_artifacts tfx_artifact_map (some "")).putCalls.flatten =
      (flattenMap tfx_artifact_map).map (fun a => a.mlmd_artifact) := by
  have key0 := update_artifacts_all_ids tfx_artifact_map (some "") hid
  have key1 := update_artifacts_all_ids tfx_artifact_map none hid
  rw [@map_applyState_of_not_truthy (some "") rfl] at key0
  rw [@map_applyState_of_not_truthy none rfl] at key1
  rw [key0, key1]
  refine ⟨rfl, rfl, rfl, ?_⟩
  by_cases h' : flattenMap tfx_artifact_map = []
  · rw [h']
    rfl
  · have hfe : (flattenMap tfx_artifact_map).isEmpty = false := by
      cases hq : flattenMap tfx_artifact_map with
      | nil => exact absurd hq h'
      | cons x xs => rfl
    rw [hfe]
    simp

/-- C9 witness: one persisted artifact, empty-string state. -/
theorem c9_empty_state_string_witness :
    update_artifacts [("x", [artOne])] (some "") =
      update_artifacts [("x", [artOne])] none ∧
    (update_artifacts [("x", [artOne])] (some "")).error = none ∧
    (update_artifacts [("x", [artOne])] (some "")).artifacts =
      flattenMap [("x", [artOne])] ∧
    (update_artifacts [("x", [artOne])] (some "")).putCalls.flatten =
      (flattenMap [("x", [artOne])]).map (fun a => a.mlmd_artifact) :=
  c9_empty_state_string [("x", [artOne])] (by decide)

/-! ### Claim C10 -/

/-- Field-level frame relation between a submitted artifact and its value
after the call: every field other than the record's state field is
preserved, and when no truthy new state was supplied the artifact is
preserved entirely. -/
def onlyStateMayChange (new_artifact_state : Option String)
    (a a' : TfxArtifact) : Prop :=
  a'.artifact_type = a.artifact_type ∧
  a'.mlmd_artifact.id = a.mlmd_artifact.id ∧
  a'.mlmd_artifact.type_id = a.mlmd_artifact.type_id ∧
  a'.mlmd_artifact.type = a.mlmd_artifact.type ∧
  a'.mlmd_artifact.uri = a.mlmd_artifact.uri ∧
  a'.mlmd_artifact.properties = a.mlmd_artifact.properties ∧
  (optStrTruthy new_artifact_state = false → a' = a)

lemma onlyStateMayChange_applyState (new_artifact_state : Option String)
    (a : TfxArtifact) :
    onlyStateMayChange new_artifact_state a (applyState new_artifact_state a) := by
  unfold onlyStateMayChange applyState
  rcases h : optStrTruthy new_artifact_state with _ | _
  · rw [if_neg Bool.false_ne_true]
    exact ⟨rfl, rfl, rfl, rfl, rfl, rfl, fun _ => rfl⟩
  · rw [if_pos rfl]
    refine ⟨rfl, rfl, rfl, rfl, rfl, rfl, fun hf => ?_⟩
    simp at hf

/-- C10: on an all-persisted batch, `update_artifacts` never fails, every
record handed to the store is exactly the corresponding artifact's
underlying record, and each artifact is related to its submitted value by
the frame relation: the state field is the only field that may change, and
only when a truthy (non-empty) new-state value was supplied. -/
theorem c10_frame
    (tfx_artifact_map : List (String × List TfxArtifact))
    (new_artifact_state : Option String)
    (hid : ∀ a ∈ flattenMap tfx_artifact_map, a.mlmd_artifact.id.isSome = true) :
    (update_artifacts tfx_artifact_map new_artifact_state).error = none ∧
    List.Forall₂ (onlyStateMayChange new_artifact_state)
      (flattenMap tfx_artifact_map)
      (update_artifacts tfx_artifact_map new_artifact_state).artifacts ∧
    (update_artifacts tfx_artifact_map new_artifact_state).putCalls.flatten =
      (update_artifacts tfx_artifact_map new_artifact_state).artifacts.map
        (fun a => a.mlmd_artifact) := by
  rw [update_artifacts_all_ids tfx_artifact_map new_artifact_state hid]
  refine ⟨rfl, ?_, ?_⟩
  · rw [List.forall₂_map_right_iff, List.forall₂_same]
    intro x _
    exact onlyStateMayChange_applyState new_artifact_state x
  · by_cases h' : flattenMap tfx_artifact_map = []
    · rw [h']
      rfl
    · have hfe : (flattenMap tfx_artifact_map).isEmpty = false := by
        cases hq : flattenMap tfx_artifact_map with
        | nil => exact absurd hq h'
        | cons x xs => rfl
      rw [hfe]
      simp

/-- C10 witness: two persisted artifacts, truthy new state. -/
theorem c10_frame_witness :
    (update_artifacts [("x", [artOne, artTwo])] (some "ABANDONED")).error = none ∧
    List.Forall₂ (onlyStateMayChange (some "ABANDONED"))
      (flattenMap [("x", [artOne, artTwo])])
      (update_artifacts [("x", [artOne, artTwo])] (some "ABANDONED")).artifacts ∧
    (update_artifacts [("x", [artOne, artTwo])] (some "ABANDONED")).putCalls.flatten =
      (update_artifacts [("x", [artOne, artTwo])] (some "ABANDONED")).artifacts.map
        (fun a => a.mlmd_artifact) :=
  c10_frame [("x", [artOne, artTwo])] (some "ABANDONED") (by decide)
